import Mathlib

/-!
Shallow embedding of the transport middleware chain of go-bb-pix:
the retry transport (`internal/transport/retry.go`), the circuit breaker
transport (`internal/transport/circuit_breaker.go`), the OAuth2 token
provider (`internal/auth/oauth2.go` and the `Token` type), and the auth
transport.

Conventions of the embedding:
* Go `time.Time` / `time.Duration` values are integers (nanoseconds, `ℤ`).
* A Go error value is modelled by the inductive `Err`; `error` results are
  `Option Err` (with `none` for Go `nil`).
* The outcome of one inner `RoundTrip` call is an `Outcome`: an optional
  response paired with an optional error, mirroring Go's `(*http.Response,
  error)` pair including the degenerate `(nil, nil)` combination that the
  source code defends against.
* The inner transport (`base http.RoundTripper`) is modelled as a function
  from the attempt index to the outcome of that attempt, so a whole
  execution of the retry loop is a pure function of that oracle.
* Context cancellation is not exercised by the claims below; the embedding
  models the un-cancelled execution (the `req.Context().Done()` selects
  never fire).
-/

namespace BBPix

/-- An HTTP response, reduced to the fields the middleware inspects:
the status code, plus an opaque body tag so that "the response is returned
unchanged" is expressible. -/
structure Response where
  statusCode : ℤ
  bodyTag : ℕ
deriving DecidableEq, Repr

/-- Go error values produced or propagated by the middleware chain. -/
inductive Err where
  /-- an opaque transport-level error from the inner sender -/
  | base (tag : ℕ)
  /-- `fmt.Errorf("max retries exceeded: %w", lastErr)` from retry.go -/
  | maxRetriesExceeded (cause : Err)
  /-- `ErrCircuitOpen` from circuit_breaker.go -/
  | circuitOpen
  /-- `fmt.Errorf("failed to get auth token: %w", err)` from the auth transport -/
  | authTokenFailed (cause : Err)
  /-- an opaque error from the token fetch path of oauth2.go -/
  | fetchFailed (tag : ℕ)
deriving DecidableEq, Repr

/-- The `(*http.Response, error)` pair returned by one `RoundTrip` call. -/
structure Outcome where
  resp : Option Response
  err : Option Err
deriving DecidableEq, Repr

/-! ### retry.go -/

/-- `isIdempotent` (retry.go): only GET, HEAD, OPTIONS, PUT, DELETE are
idempotent; every other method string falls to the `default` branch.
The Go `switch` on the listed method constants is equality against each. -/
def isIdempotent (method : String) : Bool :=
  method == "GET" || method == "HEAD" || method == "OPTIONS" ||
    method == "PUT" || method == "DELETE"

/-- `shouldRetry` (retry.go): retry on a transport-level error, on a
missing response, or on status 429, 502, 503 or 504 (the Go `switch` on
the listed status constants is equality against each). -/
def shouldRetry (resp : Option Response) (err : Option Err) : Bool :=
  match err with
  | some _ => true
  | none =>
    match resp with
    | none => true
    | some r =>
      r.statusCode == 429 || r.statusCode == 502 || r.statusCode == 503 ||
        r.statusCode == 504

/-- The value returned by `RetryTransport.RoundTrip`, together with the
number of times the inner `base.RoundTrip` was invoked. -/
structure RetryOutput where
  resp : Option Response
  err : Option Err
  attempts : ℕ
deriving DecidableEq, Repr

/-- The body of the `for attempt := 0; attempt <= maxRetries` loop of
`RetryTransport.RoundTrip` (retry.go lines 36-75) followed by the
post-loop exhaustion return (lines 78-82).  `rem` is the remaining budget
`maxRetries - attempt`, so the Go guard `attempt < t.maxRetries` that
allows entering the next iteration is `rem ≠ 0`.  `attempt` is the current
zero-based attempt index; the returned `attempts` counts inner calls. -/
def retryLoop (method : String) (base : ℕ → Outcome) : ℕ → ℕ → RetryOutput
  | rem, attempt =>
    let o := base attempt
    -- line 48: if lastErr == nil && !shouldRetry(resp, nil) { return resp, nil }
    if o.err = none ∧ shouldRetry o.resp none = false then
      ⟨o.resp, none, attempt + 1⟩
    -- line 53: if shouldRetry(resp, lastErr) && isIdempotent(req.Method)
    else if shouldRetry o.resp o.err = true ∧ isIdempotent method = true then
      match rem with
      | r + 1 => retryLoop method base r (attempt + 1)
      | 0 =>
        -- loop exits with attempt = maxRetries; lines 78-82
        match o.err with
        | some e => ⟨none, some (.maxRetriesExceeded e), attempt + 1⟩
        | none => ⟨o.resp, none, attempt + 1⟩
    else
      -- line 73: return resp, lastErr
      ⟨o.resp, o.err, attempt + 1⟩

/-- `RetryTransport.RoundTrip` (retry.go): run the loop from attempt 0
with budget `maxRetries`. -/
def retryRoundTrip (maxRetries : ℕ) (method : String) (base : ℕ → Outcome) :
    RetryOutput :=
  retryLoop method base maxRetries 0

/-- `RetryTransport.calculateBackoff` (retry.go), over exact rationals:
`backoff = initialBackoff * 2^attempt`, multiplied by the jitter
`0.75 + u * 0.5` where `u` stands for the `rand.Float64()` draw
(a value in `[0, 1)`).  The final truncation `time.Duration(backoff)` to
whole nanoseconds is below the spec's granularity and is not modelled. -/
def calculateBackoff (initialBackoff : ℚ) (attempt : ℕ) (u : ℚ) : ℚ :=
  let backoff := initialBackoff * 2 ^ attempt
  let jitter := 3 / 4 + u * (1 / 2)
  backoff * jitter

/-! ### circuit_breaker.go -/

/-- The `circuitState` enum of circuit_breaker.go. -/
inductive CircuitState where
  | stateClosed
  | stateOpen
  | stateHalfOpen
deriving DecidableEq, Repr

/-- The mutable fields of the `circuitBreaker` struct, together with its
configuration.  Times are integers (nanoseconds). -/
structure Breaker where
  state : CircuitState
  failureCount : ℕ
  maxFailures : ℕ
  resetTimeout : ℤ
  lastFailTime : ℤ
deriving DecidableEq, Repr

/-- `newCircuitBreaker` (circuit_breaker.go): closed, zero counter.
Go zero values give `lastFailTime = 0`. -/
def newCircuitBreaker (maxFailures : ℕ) (resetTimeout : ℤ) : Breaker :=
  { state := .stateClosed, failureCount := 0, maxFailures := maxFailures
    resetTimeout := resetTimeout, lastFailTime := 0 }

/-- `circuitBreaker.canExecute` (circuit_breaker.go): returns the updated
breaker and the error (if any).  `now` is the current time, so
`time.Since(cb.lastFailTime)` is `now - cb.lastFailTime`. -/
def canExecute (cb : Breaker) (now : ℤ) : Breaker × Option Err :=
  match cb.state with
  | .stateClosed => (cb, none)
  | .stateOpen =>
    if now - cb.lastFailTime > cb.resetTimeout then
      ({ cb with state := .stateHalfOpen }, none)
    else
      (cb, some .circuitOpen)
  | .stateHalfOpen => (cb, none)

/-- `circuitBreaker.recordSuccess` (circuit_breaker.go). -/
def recordSuccess (cb : Breaker) : Breaker :=
  let cb := { cb with failureCount := 0 }
  if cb.state = .stateHalfOpen then { cb with state := .stateClosed } else cb

/-- `circuitBreaker.recordFailure` (circuit_breaker.go): `now` is the
value `time.Now()` stored into `lastFailTime`. -/
def recordFailure (cb : Breaker) (now : ℤ) : Breaker :=
  let cb := { cb with failureCount := cb.failureCount + 1, lastFailTime := now }
  if cb.state = .stateHalfOpen then
    { cb with state := .stateOpen }
  else if cb.failureCount ≥ cb.maxFailures then
    { cb with state := .stateOpen }
  else
    cb

/-- `isCircuitBreakerFailure` (circuit_breaker.go): transport-level error,
missing response, or a 5xx status. -/
def isCircuitBreakerFailure (o : Outcome) : Bool :=
  match o.err with
  | some _ => true
  | none =>
    match o.resp with
    | none => true
    | some r => decide (500 ≤ r.statusCode ∧ r.statusCode < 600)

/-- One externally visible operation on the breaker state, as invoked by
`CircuitBreakerTransport.RoundTrip`: a `canExecute` check at time `t`, a
`recordSuccess`, or a `recordFailure` at time `t`. -/
inductive CBEvent where
  | canExec (t : ℤ)
  | success
  | failure (t : ℤ)
deriving DecidableEq, Repr

/-- The breaker state after one event. -/
def cbStep (cb : Breaker) (e : CBEvent) : Breaker :=
  match e with
  | .canExec t => (canExecute cb t).1
  | .success => recordSuccess cb
  | .failure t => recordFailure cb t

/-- `CircuitBreakerTransport.RoundTrip` (circuit_breaker.go): the breaker
consultation, the inner call (modelled by the `inner` outcome, performed
only if `canExecute` allowed it), and the success/failure recording.
`innerCalls` threads the inner sender's call counter; `now` is the current
time used for both the `canExecute` check and a `recordFailure`. -/
def cbRoundTrip (cb : Breaker) (now : ℤ) (inner : Outcome) (innerCalls : ℕ) :
    Breaker × Outcome × ℕ :=
  match canExecute cb now with
  | (cb', some e) => (cb', ⟨none, some e⟩, innerCalls)
  | (cb', none) =>
    if isCircuitBreakerFailure inner then
      (recordFailure cb' now, inner, innerCalls + 1)
    else
      (recordSuccess cb', inner, innerCalls + 1)

/-! ### The `Token` type and `internal/auth/oauth2.go` -/

/-- Nanoseconds per second, for converting `ExpiresIn` (seconds) to the
nanosecond time scale of `time.Duration`. -/
def nsPerSecond : ℤ := 1000000000

/-- The five-minute expiration threshold of `Token.IsExpired`, in
nanoseconds. -/
def expirationThreshold : ℤ := 300 * nsPerSecond

/-- The `Token` struct: access token value, type, lifetime in seconds,
issuance time (nanoseconds). -/
structure Token where
  accessToken : String
  tokenType : String
  expiresIn : ℤ
  issuedAt : ℤ
deriving DecidableEq, Repr

/-- `Token.ExpiresAt`: `IssuedAt.Add(ExpiresIn * time.Second)`. -/
def Token.expiresAt (t : Token) : ℤ :=
  t.issuedAt + t.expiresIn * nsPerSecond

/-- `Token.IsExpired` on a non-nil receiver: expired when the time until
expiry is below the five-minute threshold.  `now` is the current time. -/
def Token.isExpired (t : Token) (now : ℤ) : Bool :=
  decide (t.expiresAt - now < expirationThreshold)

/-- `Token.IsExpired` including the nil-receiver branch: a nil token is
expired. -/
def optIsExpired (t : Option Token) (now : ℤ) : Bool :=
  match t with
  | none => true
  | some t => t.isExpired now

/-- The mutable state of `OAuth2Provider`: the cached token (nil or
present). -/
structure ProviderState where
  cachedToken : Option Token
deriving DecidableEq, Repr

/-- `OAuth2Provider.Invalidate`: clears the cached token. -/
def invalidate (_s : ProviderState) : ProviderState :=
  { cachedToken := none }

/-- What one `GetToken` call returned and did. -/
structure GetTokenResult where
  state : ProviderState
  result : Except Err Token
  didFetch : Bool
deriving Repr

/-- The write-locked section of `OAuth2Provider.GetToken` (oauth2.go lines
58-74): double-check the cache, fetch on miss, store the fetched token;
the cached state is left unchanged when the fetch fails.  `fetch` is the
outcome `fetchToken` would produce.  Under the mutex this section executes
atomically, so it is a pure state transformer. -/
def getTokenLocked (s : ProviderState) (now : ℤ) (fetch : Except Err Token) :
    GetTokenResult :=
  match s.cachedToken with
  | some t =>
    if t.isExpired now = false then
      ⟨s, .ok t, false⟩
    else
      match fetch with
      | .error e => ⟨s, .error e, true⟩
      | .ok tok => ⟨⟨some tok⟩, .ok tok, true⟩
  | none =>
    match fetch with
    | .error e => ⟨s, .error e, true⟩
    | .ok tok => ⟨⟨some tok⟩, .ok tok, true⟩

/-- `OAuth2Provider.GetToken` (oauth2.go lines 47-75) executed without
interference: the read-locked fast path, then (on miss) the write-locked
slow path on the same state. -/
def getToken (s : ProviderState) (now : ℤ) (fetch : Except Err Token) :
    GetTokenResult :=
  match s.cachedToken with
  | some t =>
    if t.isExpired now = false then
      ⟨s, .ok t, false⟩
    else
      getTokenLocked s now fetch
  | none => getTokenLocked s now fetch

/-- `n` concurrent callers of `GetToken` racing on a missing or expired
credential: every caller's read-locked check saw the initial (invalid)
state and failed, and the write-locked sections then execute one after the
other (the mutex serializes them).  Returns the final state and the total
number of fetches performed. -/
def runRacingCallers (n : ℕ) (s : ProviderState) (now : ℤ)
    (fetch : Except Err Token) : ProviderState × ℕ :=
  match n with
  | 0 => (s, 0)
  | n + 1 =>
    let r := getTokenLocked s now fetch
    let rest := runRacingCallers n r.state now fetch
    (rest.1, (if r.didFetch then 1 else 0) + rest.2)

/-! ### The auth transport (`AuthTransport.RoundTrip`) -/

/-- What one `AuthTransport.RoundTrip` call returned and did.
`invalidations` counts the calls to `tokenProvider.Invalidate`. -/
structure AuthResult where
  out : Outcome
  invalidations : ℕ
deriving DecidableEq, Repr

/-- `AuthTransport.RoundTrip`: obtain a token (propagating failure as a
wrapped error), forward to the inner sender, and on a 401 response
invalidate the token provider while returning the response unchanged.
The inner sender is modelled as `Except Err Response`, following the
`http.RoundTripper` contract that a nil error comes with a non-nil
response (the code dereferences `resp.StatusCode` after `err == nil`). -/
def authRoundTrip (tok : Except Err Token) (inner : Except Err Response) :
    AuthResult :=
  match tok with
  | .error e => ⟨⟨none, some (.authTokenFailed e)⟩, 0⟩
  | .ok _ =>
    match inner with
    | .error e => ⟨⟨none, some e⟩, 0⟩
    | .ok r =>
      if r.statusCode = 401 then
        ⟨⟨some r, none⟩, 1⟩
      else
        ⟨⟨some r, none⟩, 0⟩

/-! ## Theorems -/

/-- One unfolding of the retry loop. -/
theorem retryLoop_unfold (method : String) (base : ℕ → Outcome)
    (rem attempt : ℕ) :
    retryLoop method base rem attempt =
      if (base attempt).err = none ∧
          shouldRetry (base attempt).resp none = false then
        ⟨(base attempt).resp, none, attempt + 1⟩
      else if shouldRetry (base attempt).resp (base attempt).err = true ∧
          isIdempotent method = true then
        match rem with
        | r + 1 => retryLoop method base r (attempt + 1)
        | 0 =>
          match (base attempt).err with
          | some e => ⟨none, some (.maxRetriesExceeded e), attempt + 1⟩
          | none => ⟨(base attempt).resp, none, attempt + 1⟩
      else
        ⟨(base attempt).resp, (base attempt).err, attempt + 1⟩ := by
  rw [retryLoop.eq_def]

/-- If the attempt's outcome is not retryable or the method is not
idempotent, the loop returns that outcome at once. -/
theorem retryLoop_stop (method : String) (base : ℕ → Outcome)
    (rem attempt : ℕ)
    (h : ¬(shouldRetry (base attempt).resp (base attempt).err = true ∧
        isIdempotent method = true)) :
    retryLoop method base rem attempt =
      ⟨(base attempt).resp, (base attempt).err, attempt + 1⟩ := by
  rw [retryLoop_unfold]
  by_cases h1 : (base attempt).err = none ∧
      shouldRetry (base attempt).resp none = false
  · rw [if_pos h1, h1.1]
  · rw [if_neg h1, if_neg h]

/-- With budget remaining, a retryable outcome of an idempotent request
makes the loop proceed to the next attempt. -/
theorem retryLoop_continue (method : String) (base : ℕ → Outcome)
    (r attempt : ℕ)
    (hr : shouldRetry (base attempt).resp (base attempt).err = true)
    (hid : isIdempotent method = true) :
    retryLoop method base (r + 1) attempt =
      retryLoop method base r (attempt + 1) := by
  rw [retryLoop_unfold]
  have h1 : ¬((base attempt).err = none ∧
      shouldRetry (base attempt).resp none = false) := by
    rintro ⟨he, hs⟩
    rw [he] at hr
    rw [hr] at hs
    exact absurd hs (by simp)
  rw [if_neg h1, if_pos ⟨hr, hid⟩]

/-- With the budget exhausted, a retryable outcome of an idempotent
request makes the loop return via the post-loop exhaustion path. -/
theorem retryLoop_exhaust (method : String) (base : ℕ → Outcome)
    (attempt : ℕ)
    (hr : shouldRetry (base attempt).resp (base attempt).err = true)
    (hid : isIdempotent method = true) :
    retryLoop method base 0 attempt =
      match (base attempt).err with
      | some e => ⟨none, some (.maxRetriesExceeded e), attempt + 1⟩
      | none => ⟨(base attempt).resp, none, attempt + 1⟩ := by
  rw [retryLoop_unfold]
  have h1 : ¬((base attempt).err = none ∧
      shouldRetry (base attempt).resp none = false) := by
    rintro ⟨he, hs⟩
    rw [he] at hr
    rw [hr] at hs
    exact absurd hs (by simp)
  rw [if_neg h1, if_pos ⟨hr, hid⟩]

/-- If every attempt in the budget window is retryable and the method is
idempotent, the loop consumes the whole window and exits through the
exhaustion path at the last attempt. -/
theorem retryLoop_all_retry (method : String) (base : ℕ → Outcome)
    (hid : isIdempotent method = true) :
    ∀ rem attempt,
      (∀ i, attempt ≤ i → i ≤ attempt + rem →
        shouldRetry (base i).resp (base i).err = true) →
      retryLoop method base rem attempt =
        match (base (attempt + rem)).err with
        | some e => ⟨none, some (.maxRetriesExceeded e), attempt + rem + 1⟩
        | none => ⟨(base (attempt + rem)).resp, none, attempt + rem + 1⟩ := by
  intro rem
  induction rem with
  | zero =>
    intro attempt h
    simpa using retryLoop_exhaust method base attempt
      (h attempt le_rfl (by omega)) hid
  | succ r ih =>
    intro attempt h
    rw [retryLoop_continue method base r attempt
      (h attempt le_rfl (by omega)) hid]
    have hrec := ih (attempt + 1) (fun i h1 h2 => h i (by omega) (by omega))
    have hidx : attempt + 1 + r = attempt + (r + 1) := by omega
    rw [hidx] at hrec
    exact hrec

/-- Counterexample for C1: with `maxRetries = 2`, a GET whose three
attempts all return a 503 response with no transport-level error consumes
exactly 3 attempts but the stage then returns the last 503 response with
a nil error — not the wrapped "max retries exceeded" error the claim
requires in this case (retry.go only wraps when `lastErr != nil`). -/
theorem retry_exhaustion_counterexample :
    (retryRoundTrip 2 "GET" (fun _ => ⟨some ⟨503, 0⟩, none⟩)).attempts = 3 ∧
    (retryRoundTrip 2 "GET" (fun _ => ⟨some ⟨503, 0⟩, none⟩)).err = none ∧
    (retryRoundTrip 2 "GET" (fun _ => ⟨some ⟨503, 0⟩, none⟩)).resp =
      some ⟨503, 0⟩ := by
  refine ⟨rfl, rfl, rfl⟩

/-- C1 (amended): for an idempotent request whose every attempt yields a
retryable outcome, the stage performs exactly `maxRetries + 1` attempts;
it then returns the wrapped retries-exhausted error when the final
attempt produced a transport-level error, and otherwise (every attempt
was a retryable-status response with no transport-level error) it
returns the final response with a nil error. -/
theorem retry_exhaustion (maxRetries : ℕ) (method : String)
    (base : ℕ → Outcome) (hid : isIdempotent method = true)
    (hretry : ∀ i, i ≤ maxRetries →
      shouldRetry (base i).resp (base i).err = true) :
    (retryRoundTrip maxRetries method base).attempts = maxRetries + 1 ∧
    (∀ e, (base maxRetries).err = some e →
      retryRoundTrip maxRetries method base =
        ⟨none, some (.maxRetriesExceeded e), maxRetries + 1⟩) ∧
    ((base maxRetries).err = none →
      retryRoundTrip maxRetries method base =
        ⟨(base maxRetries).resp, none, maxRetries + 1⟩) := by
  have hall := retryLoop_all_retry method base hid maxRetries 0
    (fun i _ h2 => hretry i (by omega))
  rw [Nat.zero_add] at hall
  rw [retryRoundTrip, hall]
  refine ⟨?_, ?_, ?_⟩
  · cases h : (base maxRetries).err <;> simp [h]
  · intro e he
    rw [he]
  · intro he
    rw [he]

/-- Witness for C1 (amended): with `maxRetries = 1` and every attempt a
transport-level error, the result is the wrapped exhaustion error after
2 attempts. -/
theorem retry_exhaustion_witness :
    retryRoundTrip 1 "GET" (fun _ => ⟨none, some (.base 0)⟩) =
      ⟨none, some (.maxRetriesExceeded (.base 0)), 2⟩ :=
  (retry_exhaustion 1 "GET" (fun _ => ⟨none, some (.base 0)⟩) rfl
    (fun _ _ => rfl)).2.1 (.base 0) rfl

/-- C3: the stage re-attempts after an attempt exactly when the outcome
is retryable and the method is idempotent (and budget remains): the
retryable predicate is "transport-level error, or no response, or status
in {429, 502, 503, 504}", the idempotent predicate is membership in
{GET, HEAD, OPTIONS, PUT, DELETE}, a retryable outcome of an idempotent
request with budget remaining leads to the next attempt, any other
outcome is returned immediately, and a non-idempotent method always
yields exactly one attempt whose outcome is returned directly. -/
theorem retry_decision (method : String) (base : ℕ → Outcome)
    (maxRetries rem r attempt : ℕ) (resp : Option Response)
    (err : Option Err) :
    (shouldRetry resp err = true ↔
      (err ≠ none ∨ resp = none ∨ ∃ R, resp = some R ∧
        (R.statusCode = 429 ∨ R.statusCode = 502 ∨ R.statusCode = 503 ∨
          R.statusCode = 504))) ∧
    (isIdempotent method = true ↔
      (method = "GET" ∨ method = "HEAD" ∨ method = "OPTIONS" ∨
        method = "PUT" ∨ method = "DELETE")) ∧
    (shouldRetry (base attempt).resp (base attempt).err = true →
      isIdempotent method = true →
      retryLoop method base (r + 1) attempt =
        retryLoop method base r (attempt + 1)) ∧
    (¬(shouldRetry (base attempt).resp (base attempt).err = true ∧
        isIdempotent method = true) →
      retryLoop method base rem attempt =
        ⟨(base attempt).resp, (base attempt).err, attempt + 1⟩) ∧
    (isIdempotent method = false →
      retryRoundTrip maxRetries method base =
        ⟨(base 0).resp, (base 0).err, 1⟩) := by
  refine ⟨?_, ?_, ?_, ?_, ?_⟩
  · cases err with
    | some e => simp [shouldRetry]
    | none =>
      cases resp with
      | none => simp [shouldRetry]
      | some R => simp [shouldRetry]; tauto
  · simp [isIdempotent]; tauto
  · exact fun hr hid => retryLoop_continue method base r attempt hr hid
  · exact fun h => retryLoop_stop method base rem attempt h
  · intro hni
    exact retryLoop_stop method base maxRetries 0
      (fun h => by rw [hni] at h; exact absurd h.2 (by simp))

/-- Witness for C3: a POST whose sole attempt returns a retryable 503 is
not retried — exactly one attempt, returned directly. -/
theorem retry_decision_witness :
    retryRoundTrip 5 "POST" (fun _ => ⟨some ⟨503, 0⟩, none⟩) =
      ⟨some ⟨503, 0⟩, none, 1⟩ :=
  (retry_decision "POST" (fun _ => ⟨some ⟨503, 0⟩, none⟩)
    5 0 0 0 none none).2.2.2.2 rfl

/-- C4: while the breaker is open and the reset timeout has not elapsed
since the last recorded failure, `RoundTrip` returns the distinguished
circuit-open error, the breaker state is unchanged, and the inner sender
is not invoked (its call count is unchanged). -/
theorem circuit_open_fail_fast (cb : Breaker) (now : ℤ) (inner : Outcome)
    (c : ℕ) (hs : cb.state = .stateOpen)
    (ht : now - cb.lastFailTime ≤ cb.resetTimeout) :
    cbRoundTrip cb now inner c = (cb, ⟨none, some .circuitOpen⟩, c) := by
  simp [cbRoundTrip, canExecute, hs, not_lt.mpr ht]

/-- Witness for C4: a breaker opened at time 0 with a 1000ns reset
timeout, consulted at time 500, fails fast without an inner call. -/
theorem circuit_open_fail_fast_witness :
    cbRoundTrip ⟨.stateOpen, 3, 3, 1000, 0⟩ 500 ⟨some ⟨200, 0⟩, none⟩ 3 =
      (⟨.stateOpen, 3, 3, 1000, 0⟩, ⟨none, some .circuitOpen⟩, 3) :=
  circuit_open_fail_fast ⟨.stateOpen, 3, 3, 1000, 0⟩ 500 ⟨some ⟨200, 0⟩, none⟩ 3
    rfl (by decide)

/-- C6: the breaker classifies an outcome as a failure exactly when a
transport-level error occurred, or no response was obtained, or the
status is in 500..599; in particular every 4xx response is classified as
a success, and a success resets (never increments) the failure counter. -/
theorem breaker_failure_classification (o : Outcome) :
    (isCircuitBreakerFailure o = true ↔
      (o.err ≠ none ∨ o.resp = none ∨
        ∃ r, o.resp = some r ∧ 500 ≤ r.statusCode ∧ r.statusCode < 600)) ∧
    (∀ r : Response, o = ⟨some r, none⟩ → 400 ≤ r.statusCode →
      r.statusCode < 500 → isCircuitBreakerFailure o = false) ∧
    (∀ cb : Breaker, (recordSuccess cb).failureCount = 0) := by
  refine ⟨?_, ?_, ?_⟩
  · rcases o with ⟨resp, err⟩
    cases err with
    | some e => simp [isCircuitBreakerFailure]
    | none =>
      cases resp with
      | none => simp [isCircuitBreakerFailure]
      | some r => simp [isCircuitBreakerFailure]
  · rintro r rfl h4 h5
    have hns : ¬(500 ≤ r.statusCode ∧ r.statusCode < 600) := by omega
    simp [isCircuitBreakerFailure, hns]
  · intro cb
    simp only [recordSuccess]
    split <;> rfl

/-- Witness for C6: a 404 response is not a breaker failure. -/
theorem breaker_failure_classification_witness :
    isCircuitBreakerFailure ⟨some ⟨404, 0⟩, none⟩ = false :=
  (breaker_failure_classification ⟨some ⟨404, 0⟩, none⟩).2.1 ⟨404, 0⟩ rfl
    (by decide) (by decide)

/-- C7: a token is expired exactly when the time remaining before
`issuedAt + expiresIn` seconds is below the five-minute threshold;
a cached unexpired token is returned without a fetch, and a cached
expired token forces a fetch on the next `GetToken` call. -/
theorem token_expiry_margin (t : Token) (now : ℤ) (s : ProviderState)
    (fetch : Except Err Token) :
    (t.isExpired now = true ↔
      (t.issuedAt + t.expiresIn * nsPerSecond) - now < 300 * nsPerSecond) ∧
    (s.cachedToken = some t → t.isExpired now = false →
      getToken s now fetch = ⟨s, .ok t, false⟩) ∧
    (s.cachedToken = some t → t.isExpired now = true →
      (getToken s now fetch).didFetch = true) := by
  refine ⟨?_, ?_, ?_⟩
  · simp [Token.isExpired, Token.expiresAt, expirationThreshold]
  · intro hc hf
    rcases s with ⟨ct⟩
    simp only at hc
    subst hc
    simp [getToken, hf]
  · intro hc he
    rcases s with ⟨ct⟩
    simp only at hc
    subst hc
    simp only [getToken, getTokenLocked, he]
    cases fetch <;> simp

/-- Witness for C7: a token issued at time 0 with a 3600-second lifetime
is not expired at time 0 and is served from cache without a fetch. -/
theorem token_expiry_margin_witness :
    getToken ⟨some ⟨"tok", "Bearer", 3600, 0⟩⟩ 0 (.error (.fetchFailed 0)) =
      ⟨⟨some ⟨"tok", "Bearer", 3600, 0⟩⟩, .ok ⟨"tok", "Bearer", 3600, 0⟩,
        false⟩ :=
  (token_expiry_margin ⟨"tok", "Bearer", 3600, 0⟩ 0
      ⟨some ⟨"tok", "Bearer", 3600, 0⟩⟩ (.error (.fetchFailed 0))).2.1
    rfl (by decide)

/-- C8: when the inner sender responds with status 401 the auth stage
invalidates the token provider exactly once and returns that response
unchanged; any other status yields no invalidation, and an inner
transport-level error also yields no invalidation. -/
theorem auth_unauthorized_invalidation (t : Token) (r : Response) :
    (r.statusCode = 401 → authRoundTrip (.ok t) (.ok r) = ⟨⟨some r, none⟩, 1⟩) ∧
    (r.statusCode ≠ 401 → authRoundTrip (.ok t) (.ok r) = ⟨⟨some r, none⟩, 0⟩) ∧
    (∀ e, (authRoundTrip (.ok t) (.error e)).invalidations = 0) := by
  refine ⟨fun h => ?_, fun h => ?_, fun e => rfl⟩
  · simp [authRoundTrip, h]
  · simp [authRoundTrip, h]

/-- Witness for C8: a 401 response with body tag 7 triggers exactly one
invalidation and is returned with the same status and body. -/
theorem auth_unauthorized_invalidation_witness :
    authRoundTrip (.ok ⟨"tok", "Bearer", 3600, 0⟩) (.ok ⟨401, 7⟩) =
      ⟨⟨some ⟨401, 7⟩, none⟩, 1⟩ :=
  (auth_unauthorized_invalidation ⟨"tok", "Bearer", 3600, 0⟩ ⟨401, 7⟩).1 rfl

/-- C9: the backoff before attempt `i + 1` equals
`initialBackoff * 2^i * r` with `r = 0.75 + u/2 ∈ [0.75, 1.25]` for the
random draw `u ∈ [0, 1)`; the un-jittered delay doubles with each attempt
index, and for a positive initial backoff the realized delay lies between
0.75 and 1.25 times `initialBackoff * 2^i`. -/
theorem backoff_formula (ib : ℚ) (i : ℕ) (u : ℚ) (h0 : 0 ≤ u) (h1 : u < 1) :
    calculateBackoff ib i u = ib * 2 ^ i * (3 / 4 + u * (1 / 2)) ∧
    3 / 4 ≤ 3 / 4 + u * (1 / 2) ∧ 3 / 4 + u * (1 / 2) ≤ 5 / 4 ∧
    ib * 2 ^ (i + 1) = 2 * (ib * 2 ^ i) ∧
    (0 < ib →
      3 / 4 * (ib * 2 ^ i) ≤ calculateBackoff ib i u ∧
      calculateBackoff ib i u ≤ 5 / 4 * (ib * 2 ^ i)) := by
  have hb : calculateBackoff ib i u = ib * 2 ^ i * (3 / 4 + u * (1 / 2)) := rfl
  have hjlo : (3 : ℚ) / 4 ≤ 3 / 4 + u * (1 / 2) := by nlinarith
  have hjhi : (3 : ℚ) / 4 + u * (1 / 2) ≤ 5 / 4 := by nlinarith
  refine ⟨hb, hjlo, hjhi, by ring, fun hib => ?_⟩
  have hpow : (0 : ℚ) < ib * 2 ^ i := by positivity
  constructor
  · rw [hb]; nlinarith
  · rw [hb]; nlinarith

/-- Witness for C9: with initial backoff 100 and draw `u = 1/2`, the delay
before attempt 3 (index 2) is `100 * 4 * 1 = 400`. -/
theorem backoff_formula_witness :
    calculateBackoff 100 2 (1 / 2) =
      100 * 2 ^ 2 * (3 / 4 + (1 / 2) * (1 / 2)) :=
  (backoff_formula 100 2 (1 / 2) (by norm_num) (by norm_num)).1

/-- C2: the only state changes of the breaker under any single operation
(hence, composed, under any sequence of operations) are:
closed→open on a failure that brings the counter to the threshold,
open→half-open on a call-attempt check after the reset timeout,
half-open→closed on a success, half-open→open on a failure — and each of
those triggers does produce its transition; moreover every success resets
the failure counter to zero. -/
theorem breaker_transitions (cb : Breaker) (e : CBEvent) :
    ((cbStep cb e).state ≠ cb.state →
      (cb.state = .stateClosed ∧ (cbStep cb e).state = .stateOpen ∧
        ∃ t, e = .failure t ∧ cb.failureCount + 1 ≥ cb.maxFailures) ∨
      (cb.state = .stateOpen ∧ (cbStep cb e).state = .stateHalfOpen ∧
        ∃ t, e = .canExec t ∧ t - cb.lastFailTime > cb.resetTimeout) ∨
      (cb.state = .stateHalfOpen ∧ (cbStep cb e).state = .stateClosed ∧ e = .success) ∨
      (cb.state = .stateHalfOpen ∧ (cbStep cb e).state = .stateOpen ∧
        ∃ t, e = .failure t)) ∧
    (∀ t, cb.state = .stateClosed → cb.failureCount + 1 ≥ cb.maxFailures →
      (cbStep cb (.failure t)).state = .stateOpen) ∧
    (∀ t, cb.state = .stateOpen → t - cb.lastFailTime > cb.resetTimeout →
      (cbStep cb (.canExec t)).state = .stateHalfOpen) ∧
    (cb.state = .stateHalfOpen → (cbStep cb .success).state = .stateClosed) ∧
    (∀ t, cb.state = .stateHalfOpen → (cbStep cb (.failure t)).state = .stateOpen) ∧
    (cbStep cb .success).failureCount = 0 := by
  rcases cb with ⟨st, fc, mf, rt, lf⟩
  refine ⟨?_, ?_, ?_, ?_, ?_, ?_⟩
  · intro hne
    cases e with
    | canExec t =>
      cases st with
      | stateClosed => exact absurd rfl hne
      | stateOpen =>
        by_cases hto : t - lf > rt
        · exact Or.inr (Or.inl ⟨rfl, by simp [cbStep, canExecute, hto], t, rfl, hto⟩)
        · exact absurd (by simp [cbStep, canExecute, hto]) hne
      | stateHalfOpen => exact absurd rfl hne
    | success =>
      cases st with
      | stateClosed => exact absurd (by simp [cbStep, recordSuccess]) hne
      | stateOpen => exact absurd (by simp [cbStep, recordSuccess]) hne
      | stateHalfOpen => exact Or.inr (Or.inr (Or.inl ⟨rfl, by simp [cbStep, recordSuccess], rfl⟩))
    | failure t =>
      cases st with
      | stateClosed =>
        by_cases hm : fc + 1 ≥ mf
        · exact Or.inl ⟨rfl, by simp [cbStep, recordFailure, hm], t, rfl, hm⟩
        · exact absurd (by simp [cbStep, recordFailure, hm]) hne
      | stateOpen =>
        by_cases hm : fc + 1 ≥ mf
        · exact absurd (by simp [cbStep, recordFailure, hm]) hne
        · exact absurd (by simp [cbStep, recordFailure, hm]) hne
      | stateHalfOpen => exact Or.inr (Or.inr (Or.inr ⟨rfl, by simp [cbStep, recordFailure], t, rfl⟩))
  · rintro t rfl hm
    simp [cbStep, recordFailure, hm]
  · rintro t rfl hto
    simp [cbStep, canExecute, hto]
  · rintro rfl
    simp [cbStep, recordSuccess]
  · rintro t rfl
    simp [cbStep, recordFailure]
  · cases st <;> simp [cbStep, recordSuccess]

/-- Witness for C2: a closed breaker with threshold 3 and counter 2 opens
on the next failure. -/
theorem breaker_transitions_witness :
    (cbStep ⟨.stateClosed, 2, 3, 1000, 0⟩ (.failure 50)).state = .stateOpen :=
  (breaker_transitions ⟨.stateClosed, 2, 3, 1000, 0⟩ (.failure 50)).2.1 50 rfl
    (by decide)

/-- Counterexample for C5: the claim says a failed fetch leaves the cache
with no credential, but `GetToken` does not clear the cache on a failed
fetch: starting from a cached token that is already expired (issued at
time 0 with a zero lifetime, queried at time 1000 s), a failing fetch
leaves that stale token in the cache. -/
theorem token_cache_failed_fetch_counterexample :
    (getToken ⟨some ⟨"tok", "Bearer", 0, 0⟩⟩ (1000 * nsPerSecond)
        (.error (.fetchFailed 0))).state.cachedToken =
      some ⟨"tok", "Bearer", 0, 0⟩ := by
  rfl

/-- C5 (amended): `Invalidate` unconditionally clears the stored
credential, and after an invalidation the next `GetToken` call performs a
fetch; a failed fetch, however, leaves the provider state (including any
stale stored credential) unchanged. -/
theorem token_cache_invalidation (s : ProviderState) (now : ℤ)
    (fetch : Except Err Token) (e : Err) :
    (invalidate s).cachedToken = none ∧
    (getToken (invalidate s) now fetch).didFetch = true ∧
    (fetch = .error e → (getToken s now fetch).state = s) := by
  refine ⟨rfl, ?_, ?_⟩
  · cases fetch <;> rfl
  · rintro rfl
    rcases s with ⟨ct⟩
    cases ct with
    | none => rfl
    | some t =>
      by_cases hf : t.isExpired now = false
      · simp [getToken, hf]
      · simp [getToken, getTokenLocked, hf]

/-- Witness for C5 (amended): after invalidation, a `GetToken` call at
time 0 with a failing fetch reports a fetch attempt and leaves the
(empty) state unchanged. -/
theorem token_cache_invalidation_witness :
    (getToken (invalidate ⟨some ⟨"tok", "Bearer", 3600, 0⟩⟩) 0
        (.error (.fetchFailed 1))).didFetch = true ∧
    (getToken ⟨none⟩ 0 (.error (.fetchFailed 1))).state = ⟨none⟩ :=
  ⟨(token_cache_invalidation ⟨some ⟨"tok", "Bearer", 3600, 0⟩⟩ 0
      (.error (.fetchFailed 1)) (.fetchFailed 1)).2.1,
   (token_cache_invalidation ⟨none⟩ 0 (.error (.fetchFailed 1))
      (.fetchFailed 1)).2.2 rfl⟩

/-- A caller whose serialized critical section finds a fresh cached
token performs no fetch, so any number of such callers fetch zero
times. -/
theorem runRacingCallers_fresh (now : ℤ) (t : Token)
    (hfresh : t.isExpired now = false) :
    ∀ n, runRacingCallers n ⟨some t⟩ now (.ok t) = (⟨some t⟩, 0) := by
  intro n
  induction n with
  | zero => rfl
  | succ n ih =>
    simp only [runRacingCallers, getTokenLocked, hfresh, if_pos]
    simpa using ih

/-- C10: with `n + 1` callers racing on a missing or expired credential
and a fetch that yields a credential that is fresh at the time of the
race, the serialized write-locked critical sections perform the network
fetch exactly once: the first caller entering the critical section
fetches and stores, and every later caller's double-check reuses the
stored credential. -/
theorem token_single_flight (n : ℕ) (s : ProviderState) (now : ℤ)
    (t : Token) (hmiss : optIsExpired s.cachedToken now = true)
    (hfresh : t.isExpired now = false) :
    runRacingCallers (n + 1) s now (.ok t) = (⟨some t⟩, 1) := by
  have h1 : getTokenLocked s now (.ok t) = ⟨⟨some t⟩, .ok t, true⟩ := by
    rcases s with ⟨ct⟩
    cases ct with
    | none => rfl
    | some tOld =>
      simp only [optIsExpired] at hmiss
      simp [getTokenLocked, hmiss]
  simp only [runRacingCallers, h1]
  rw [runRacingCallers_fresh now t hfresh n]
  simp

/-- Witness for C10: four callers racing on an empty cache at time 0,
with a fetch producing a one-hour token, fetch exactly once. -/
theorem token_single_flight_witness :
    runRacingCallers 4 ⟨none⟩ 0 (.ok ⟨"tok", "Bearer", 3600, 0⟩) =
      (⟨some ⟨"tok", "Bearer", 3600, 0⟩⟩, 1) :=
  token_single_flight 3 ⟨none⟩ 0 ⟨"tok", "Bearer", 3600, 0⟩ rfl (by decide)

end BBPix
